import Mathlib

/-!
Verification of the chatjpt backend (src/server.js, src/ai.js): a shallow
embedding of the session/message persistence and conversation-assembly
pipeline, faithful to the JavaScript source, together with theorems settling
the specification's claims about it.

Modelling conventions:
* A Firebase Realtime Database node is modelled per user as an association
  list in key order; push keys are chronological, so list order is insertion
  order.
* JS objects with possibly-absent string fields become structures with
  `Option String` fields; JS truthiness of such a field is `truthy` below
  (absent and the empty string are falsy).
* `admin.database.ServerValue.TIMESTAMP` is a sentinel resolved to a numeric
  server time when a write is accepted; `TsVal` distinguishes the sentinel
  (as it appears in the HTTP response body) from the resolved number stored
  in the log.
* Awaited storage reads of a just-written ref see the write (read-after-write
  on the same client, as the sequential `await`s in the source assume).
-/

namespace ChatJPT

/-- JS truthiness of an optional string field: `undefined` and `""` are falsy. -/
def truthy : Option String → Bool
  | none => false
  | some s => s != ""

/-- A timestamp value as it appears in a JSON payload: either the
`ServerValue.TIMESTAMP` placeholder sentinel or a resolved numeric time. -/
inductive TsVal where
  | sentinel
  | num (n : Nat)
deriving DecidableEq

/-- A message record as stored in the Realtime Database under
`users/{uid}/sessions/{sid}/messages/{key}`: fields may be absent. -/
structure StoredMsg where
  role : Option String
  text : Option String
  ts : Option Nat
deriving DecidableEq

/-- A message object as embedded in the `201` response body of
`POST /api/sessions/:sid/messages` (server.js lines 136, 161, 167): it has no
`id` field and its `ts` is whatever value the in-memory object holds. -/
structure RespMsg where
  role : String
  text : String
  ts : TsVal
deriving DecidableEq

/-- A row of `GET /api/sessions/:sid/messages` (server.js line 116):
`{ id, ...m }`. -/
structure MsgRow where
  id : String
  role : Option String
  text : Option String
  ts : Option Nat
deriving DecidableEq

/-- The `meta` child of a session node: `title`, `createdAt`, `updatedAt`,
any of which may be absent. -/
structure Meta where
  title : Option String
  createdAt : Option Nat
  updatedAt : Option Nat
deriving DecidableEq

def emptyMeta : Meta := ⟨none, none, none⟩

/-- One session node `users/{uid}/sessions/{sid}`: a `meta` child (possibly
absent) and the message log in key order. -/
structure SessionNode where
  meta : Option Meta
  messages : List (String × StoredMsg)
deriving DecidableEq

/-- A user's `sessions` subtree, in key order. -/
abbrev Store := List (String × SessionNode)

/-- A row of `GET /api/sessions` (server.js lines 68-71): `{ id, ...(s.meta || {}) }`. -/
structure SessionRow where
  id : String
  title : Option String
  createdAt : Option Nat
  updatedAt : Option Nat
deriving DecidableEq

/-- `Object.entries(val).map(([id, s]) => ({ id, ...(s.meta || {}) }))`
(server.js lines 68-71). -/
def sessionRows (store : Store) : List SessionRow :=
  store.map fun p =>
    let m := p.2.meta.getD emptyMeta
    ⟨p.1, m.title, m.createdAt, m.updatedAt⟩

/-- `GET /api/sessions` (server.js lines 64-74): rows sorted by
`(b.updatedAt || 0) - (a.updatedAt || 0)` (descending `updatedAt`, missing as
0, stable), then `slice(0, 200)`. -/
def listSessions (store : Store) : List SessionRow :=
  ((sessionRows store).mergeSort
    (fun a b => b.updatedAt.getD 0 ≤ a.updatedAt.getD 0)).take 200

/-- `Object.entries(val).map(([id, m]) => ({ id, ...m }))` (server.js line 116). -/
def msgRows (node : SessionNode) : List MsgRow :=
  node.messages.map fun p => ⟨p.1, p.2.role, p.2.text, p.2.ts⟩

/-- `GET /api/sessions/:sid/messages` (server.js lines 111-119): every stored
message, sorted by `(a.ts || 0) - (b.ts || 0)` (ascending `ts`, missing as 0,
stable), no truncation. -/
def listMessages (node : SessionNode) : List MsgRow :=
  (msgRows node).mergeSort (fun a b => a.ts.getD 0 ≤ b.ts.getD 0)

/-- Response of `PATCH /api/sessions/:sid`: `200 {ok:true}` or a
`400 {error}` rejection. -/
inductive RenameResp where
  | ok
  | badRequest (status : Nat) (error : String)
deriving DecidableEq

/-- RTDB `update({title, updatedAt})` on a `meta` node: sets exactly those two
children, keeps any others, and creates the node if it does not exist. -/
def metaUpdate (m : Option Meta) (t : String) (now : Nat) : Meta :=
  { m.getD emptyMeta with title := some t, updatedAt := some now }

/-- Effect of `sessionMetaRef(uid, sid).update({title, updatedAt})`
(server.js lines 95-98) on the user's sessions subtree: if `sid` exists its
`meta` child is updated in place; otherwise RTDB creates the path, so a new
session node appears holding only the written `meta` children. -/
def updateSession (store : Store) (sid : String) (t : String) (now : Nat) : Store :=
  if store.any (fun p => p.1 == sid) then
    store.map fun p =>
      if p.1 == sid then (p.1, { p.2 with meta := some (metaUpdate p.2.meta t now) }) else p
  else
    store ++ [(sid, ⟨some ⟨some t, none, some now⟩, []⟩)]

/-- `PATCH /api/sessions/:sid` (server.js lines 90-100): reject with 400 when
`title` is falsy, else update the meta node and answer `{ok:true}`. -/
def renameSession (store : Store) (sid : String) (title : Option String) (now : Nat) :
    RenameResp × Store :=
  match title with
  | none => (.badRequest 400 "title required", store)
  | some t =>
    if t == "" then (.badRequest 400 "title required", store)
    else (.ok, updateSession store sid t now)

/-- A context message `{role, text}` as pushed onto `history`. -/
structure CtxMsg where
  role : String
  text : String
deriving DecidableEq

/-- One iteration of the context loop (server.js lines 143-145):
`if (m.role && m.text) history.push({ role: m.role, text: m.text })`. -/
def ctxEntry (m : StoredMsg) : Option CtxMsg :=
  if truthy m.role && truthy m.text then some ⟨m.role.getD "", m.text.getD ""⟩ else none

/-- `msgsRef.limitToLast(20).get()` then `Object.values` (server.js lines
140-143): the last 20 stored message values in key (= insertion) order. -/
def windowValues (msgs : List StoredMsg) : List StoredMsg :=
  msgs.drop (msgs.length - 20)

/-- The `history` list after the loop of server.js lines 141-146. -/
def historyOf (msgs : List StoredMsg) : List CtxMsg :=
  (windowValues msgs).filterMap ctxEntry

/-- The full context handed to the Reply Generator (server.js lines 140-147):
the filtered 20-message window followed by the unconditional
`history.push({ role: 'user', text })` of line 147. `msgs` is the message log
as it stands after the user message was appended. -/
def sendContext (msgs : List StoredMsg) (t : String) : List CtxMsg :=
  historyOf msgs ++ [⟨"user", t⟩]

/-- A fresh push key for the `n`-th message of a session; Firebase push ids
are unique and chronologically ordered, which the `"m" ++ index` scheme
preserves within one node. -/
def pushKey (n : Nat) : String := "m" ++ toString n

/-- The context assembled by `POST /api/sessions/:sid/messages` for a session
whose log is `node.messages` when the user message `t` is appended (stored at
server time `now1`) and the windowed read sees it (read-after-write). -/
def sendMessageContext (node : SessionNode) (t : String) (now1 : Nat) : List CtxMsg :=
  sendContext
    ((node.messages ++
        [(pushKey node.messages.length, StoredMsg.mk (some "user") (some t) (some now1))]).map
      Prod.snd) t

/-- The hard-coded default system instruction of ai.js lines 13-15 (used when
`process.env.SYSTEM_PROMPT` is falsy). -/
def DEFAULT_SYSTEM_PROMPT : String :=
  "You are a chat assistant called ChatJPT on a website of the same name. You are just meant to be a normal large language model that can caht with the user and act as an assistant. "

/-- The fixed fallback string returned by `generateReply` when anything in its
body throws (ai.js line 32). -/
def geminiFallback : String := "⚠️ Sorry, I had trouble talking to Gemini."

/-- The prompt text built by `generateReply` (ai.js lines 13-24):
`sysPrompt` is `process.env.SYSTEM_PROMPT || <default>`; `sys` is
`messages.find(m => m.role === 'system')?.text || sysPrompt`; `convo` renders
each non-system message as `<Assistant|User>: <text>` joined by newlines; the
result is `sys + "\n\n" + convo + "\nAssistant:"`. -/
def buildPrompt (sysEnv : Option String) (messages : List CtxMsg) : String :=
  let sysPrompt : String :=
    match sysEnv with
    | some s => if s == "" then DEFAULT_SYSTEM_PROMPT else s
    | none => DEFAULT_SYSTEM_PROMPT
  let sys : String :=
    match messages.find? (fun m => m.role == "system") with
    | some m => if m.text == "" then sysPrompt else m.text
    | none => sysPrompt
  let convo : String :=
    String.intercalate "\n"
      ((messages.filter (fun m => m.role != "system")).map
        (fun m => (if m.role == "assistant" then "Assistant" else "User") ++ ": " ++ m.text))
  sys ++ "\n\n" ++ convo ++ "\nAssistant:"

/-- `generateReply` of ai.js lines 11-34: builds the prompt, runs the model
(`modelRun` stands for `model.generateContent` followed by
`result.response.text()`, with `.error ()` covering every failure the `try`
absorbs) and returns the trimmed text, or the fixed fallback on failure. -/
def generateReply (sysEnv : Option String) (messages : List CtxMsg)
    (modelRun : String → Except Unit String) : String :=
  match modelRun (buildPrompt sysEnv messages) with
  | .ok s => s.trim
  | .error _ => geminiFallback

/-- Response of `POST /api/sessions/:sid/messages`: a
`201 {user, assistant}` body or a `400 {error}` rejection. -/
inductive SendResp where
  | created (user : RespMsg) (assistant : RespMsg)
  | badRequest (status : Nat) (error : String)
deriving DecidableEq

/-- `POST /api/sessions/:sid/messages` (server.js lines 124-168): validate
`text`; push the user message (its stored `ts` resolves to `now1`); assemble
the context from the windowed read plus the unconditional push; call the
generator (`aiText || '…'`; `generateReply` never rejects, so the server-side
`catch` of lines 154-157 is unreachable); push the assistant message (stored
`ts` resolves to `now2`); bump `meta.updatedAt` to `now3`; answer 201 with
the two in-memory message objects, whose `ts` is still the sentinel. -/
def sendMessage (node : SessionNode) (text : Option String) (sysEnv : Option String)
    (modelRun : String → Except Unit String) (now1 now2 now3 : Nat) :
    SendResp × SessionNode :=
  match text with
  | none => (.badRequest 400 "text required", node)
  | some t =>
    if t == "" then (.badRequest 400 "text required", node)
    else
      let userResp : RespMsg := ⟨"user", t, TsVal.sentinel⟩
      let userStored : StoredMsg := ⟨some "user", some t, some now1⟩
      let msgs1 := node.messages ++ [(pushKey node.messages.length, userStored)]
      let ctx := sendMessageContext node t now1
      let gen := generateReply sysEnv ctx modelRun
      let replyText := if gen == "" then "…" else gen
      let aiResp : RespMsg := ⟨"assistant", replyText, TsVal.sentinel⟩
      let aiStored : StoredMsg := ⟨some "assistant", some replyText, some now2⟩
      let msgs2 := msgs1 ++ [(pushKey msgs1.length, aiStored)]
      let meta2 : Option Meta := some { node.meta.getD emptyMeta with updatedAt := some now3 }
      (.created userResp aiResp, ⟨meta2, msgs2⟩)

/-- Prompt format as the specification words it (spec §4.3 steps 5-6): the
system instruction is the text of the first context message with role
`system` when one exists, otherwise the process-wide default; each non-system
message renders as `<Assistant|User>: <text>`, newline-joined, with the
trailing `Assistant:` cue. Stated for comparison with `buildPrompt`. -/
def promptSpec (sysEnv : Option String) (messages : List CtxMsg) : String :=
  let sysPrompt : String :=
    match sysEnv with
    | some s => if s == "" then DEFAULT_SYSTEM_PROMPT else s
    | none => DEFAULT_SYSTEM_PROMPT
  let sys : String :=
    match messages.find? (fun m => m.role == "system") with
    | some m => m.text
    | none => sysPrompt
  let convo : String :=
    String.intercalate "\n"
      ((messages.filter (fun m => m.role != "system")).map
        (fun m => (if m.role == "assistant" then "Assistant" else "User") ++ ": " ++ m.text))
  sys ++ "\n\n" ++ convo ++ "\nAssistant:"

/-- A concrete session holding 25 well-formed appended messages. -/
def exNode25 : SessionNode :=
  ⟨none, (List.range 25).map (fun i => ("m" ++ toString i, ⟨some "user", some "m", some i⟩))⟩

/-! ## Shared helper lemmas -/

theorem length_filterMap_ctxEntry (l : List StoredMsg) :
    (l.filterMap ctxEntry).length =
      List.countP (fun m => truthy m.role && truthy m.text) l := by
  induction l with
  | nil => rfl
  | cons a l ih =>
    cases h : truthy a.role && truthy a.text <;>
      simp [List.filterMap_cons, ctxEntry, h, List.countP_cons, ih]

theorem mem_windowValues_append (l : List StoredMsg) (u : StoredMsg) :
    u ∈ windowValues (l ++ [u]) := by
  have hle : (l ++ [u]).length - 20 ≤ l.length := by
    simp only [List.length_append, List.length_singleton]
    omega
  simp only [windowValues, List.drop_append_of_le_length hle]
  exact List.mem_append_right _ (by simp)

theorem historyOf_length_le (msgs : List StoredMsg) : (historyOf msgs).length ≤ 20 := by
  have h1 := List.length_filterMap_le ctxEntry (windowValues msgs)
  have h2 : (windowValues msgs).length ≤ 20 := by
    simp only [windowValues, List.length_drop]
    omega
  simp only [historyOf]
  omega

theorem sendContext_length_le (msgs : List StoredMsg) (t : String) :
    (sendContext msgs t).length ≤ 21 := by
  have := historyOf_length_le msgs
  simp only [sendContext, List.length_append, List.length_singleton]
  omega

theorem beq_empty_false {t : String} (h : t ≠ "") : (t == "") = false := by
  simpa using h

/-! ## Claims -/

/-- C4 (counterexample): a stored message that has a `role` but no `text` —
so it has one of the two fields, which the claim says is kept — is dropped by
the context filter. -/
theorem role_only_message_dropped :
    truthy (StoredMsg.mk (some "user") none (some 1)).role = true ∧
    historyOf [StoredMsg.mk (some "user") none (some 1)] = [] := by decide

/-- C4 (amended): in the windowed read, a message is kept in the context iff
both its `role` and its `text` are present and non-empty (JS-truthy); a
message missing (or empty in) either one is filtered out. -/
theorem history_keeps_message_iff_role_and_text :
    ∀ msgs : List StoredMsg,
      (historyOf msgs).length =
        List.countP (fun m => truthy m.role && truthy m.text) (windowValues msgs) ∧
      ∀ m : StoredMsg, (ctxEntry m).isSome = (truthy m.role && truthy m.text) := by
  intro msgs
  refine ⟨length_filterMap_ctxEntry _, ?_⟩
  intro m
  cases h : truthy m.role && truthy m.text <;> simp [ctxEntry, h]

/-- C6: renaming with a falsy (`undefined` or empty) title is rejected with a
400 `ValidationError` and the session store — hence the prior `title` and
`updatedAt` — is unchanged. -/
theorem rename_falsy_title_rejected :
    ∀ (store : Store) (sid : String) (title : Option String) (now : Nat),
      truthy title = false →
      renameSession store sid title now = (.badRequest 400 "title required", store) := by
  intro store sid title now h
  match title with
  | none => rfl
  | some t =>
    simp only [truthy, bne_eq_false_iff_eq] at h
    simp [renameSession, h]

/-- C6 (witness): the theorem applied to a concrete store and a missing title. -/
theorem rename_falsy_title_rejected_witness :
    truthy (none : Option String) = false ∧
    renameSession [] "s1" none 3 = (RenameResp.badRequest 400 "title required", ([] : Store)) :=
  ⟨by decide, rename_falsy_title_rejected [] "s1" none 3 (by decide)⟩

/-- C5 (counterexample): renaming a sessionId absent from an empty store
reports success but leaves the store changed — a record was created. -/
theorem rename_missing_session_changes_store :
    (renameSession [] "s1" (some "Hello") 5).1 = RenameResp.ok ∧
    (renameSession [] "s1" (some "Hello") 5).2 ≠ ([] : Store) := by decide

/-- C5 (amended): renaming a sessionId not present in the user's store with a
non-empty title succeeds, but RTDB `update` creates the path: the store gains
exactly one session record whose `meta` holds only the new `title` and
`updatedAt` (no `createdAt`) — a shape different from created sessions. -/
theorem rename_missing_session_creates_record :
    ∀ (store : Store) (sid t : String) (now : Nat),
      store.any (fun p => p.1 == sid) = false → t ≠ "" →
      renameSession store sid (some t) now =
        (RenameResp.ok, store ++ [(sid, ⟨some ⟨some t, none, some now⟩, []⟩)]) := by
  intro store sid t now hmem ht
  simp [renameSession, beq_empty_false ht, updateSession, hmem]

/-- C5 (witness): the amended theorem applied to the empty store. -/
theorem rename_missing_session_creates_record_witness :
    (([] : Store).any (fun p => p.1 == "s1") = false) ∧ ("Hello" ≠ "") ∧
    renameSession [] "s1" (some "Hello") 5 =
      (RenameResp.ok, [("s1", SessionNode.mk (some (Meta.mk (some "Hello") none (some 5))) [])]) :=
  ⟨by decide, by decide,
    rename_missing_session_creates_record [] "s1" "Hello" 5 (by decide) (by decide)⟩

/-- C2 (counterexample): sending "hi" to an empty session puts the triggering
user message into the context twice (once from the windowed read, once from
the unconditional push), not exactly once. -/
theorem context_user_message_duplicated :
    sendMessageContext ⟨none, []⟩ "hi" 5 = [CtxMsg.mk "user" "hi", CtxMsg.mk "user" "hi"] ∧
    List.countP (fun m => decide (m = CtxMsg.mk "user" "hi"))
      (sendMessageContext ⟨none, []⟩ "hi" 5) = 2 := by decide

/-- C2 (amended): the just-appended user message is pushed onto the context
unconditionally (server.js line 147), with no absence check; since the
windowed read sees the append, the triggering message occurs in the assembled
context at least twice. -/
theorem context_contains_user_message_twice :
    ∀ (node : SessionNode) (t : String) (now1 : Nat), t ≠ "" →
      2 ≤ List.countP (fun m => decide (m = CtxMsg.mk "user" t))
          (sendMessageContext node t now1) := by
  intro node t now1 ht
  have hmap : ((node.messages ++ [(pushKey node.messages.length,
        StoredMsg.mk (some "user") (some t) (some now1))]).map Prod.snd)
      = node.messages.map Prod.snd ++ [StoredMsg.mk (some "user") (some t) (some now1)] := by
    simp
  have hctx : ctxEntry (StoredMsg.mk (some "user") (some t) (some now1))
      = some (CtxMsg.mk "user" t) := by
    simp [ctxEntry, truthy, ht]
  have hmem : CtxMsg.mk "user" t ∈ historyOf (node.messages.map Prod.snd ++
      [StoredMsg.mk (some "user") (some t) (some now1)]) :=
    List.mem_filterMap.mpr ⟨_, mem_windowValues_append _ _, hctx⟩
  have hpos : 0 < List.countP (fun m => decide (m = CtxMsg.mk "user" t))
      (historyOf (node.messages.map Prod.snd ++
        [StoredMsg.mk (some "user") (some t) (some now1)])) :=
    List.countP_pos_iff.mpr ⟨_, hmem, by simp⟩
  simp only [sendMessageContext, hmap, sendContext, List.countP_append]
  have hone : List.countP (fun m => decide (m = CtxMsg.mk "user" t))
      [CtxMsg.mk "user" t] = 1 := by simp
  omega

/-- C2 (witness): the amended theorem applied to the empty session. -/
theorem context_contains_user_message_twice_witness :
    ("hi" ≠ "") ∧
    2 ≤ List.countP (fun m => decide (m = CtxMsg.mk "user" "hi"))
        (sendMessageContext ⟨none, []⟩ "hi" 7) :=
  ⟨by decide, context_contains_user_message_twice ⟨none, []⟩ "hi" 7 (by decide)⟩

/-- C1 (counterexample): on a session with 25 appended messages the context
handed to the Reply Generator has 21 entries — more than the claimed 20. -/
theorem context_exceeds_20_entries :
    25 ≤ exNode25.messages.length ∧
    (sendMessageContext exNode25 "hi" 99).length = 21 ∧
    ¬((sendMessageContext exNode25 "hi" 99).length ≤ 20) := by decide

/-- C1 (amended): for every session with at least 25 appended messages, the
context handed to the Reply Generator contains at most 21 entries (the
20-message window plus the unconditionally re-pushed user message; 21 is
attained when the window is well-formed), while `listMessages` still returns
the full log (all prior messages plus the two new ones). -/
theorem context_window_bounded_by_21 :
    ∀ (node : SessionNode) (t : String) (sysEnv : Option String)
      (modelRun : String → Except Unit String) (n1 n2 n3 : Nat),
      25 ≤ node.messages.length → t ≠ "" →
      (sendMessageContext node t n1).length ≤ 21 ∧
      (listMessages (sendMessage node (some t) sysEnv modelRun n1 n2 n3).2).length =
        node.messages.length + 2 := by
  intro node t sysEnv modelRun n1 n2 n3 _h25 ht
  refine ⟨sendContext_length_le _ _, ?_⟩
  simp [sendMessage, beq_empty_false ht, listMessages, msgRows, List.length_mergeSort]

/-- C1 (witness): the amended theorem applied to the 25-message session. -/
theorem context_window_bounded_by_21_witness :
    (25 ≤ exNode25.messages.length) ∧ ("hi" ≠ "") ∧
    ((sendMessageContext exNode25 "hi" 7).length ≤ 21 ∧
      (listMessages (sendMessage exNode25 (some "hi") none (fun _ => .error ()) 7 8 9).2).length =
        exNode25.messages.length + 2) :=
  ⟨by decide, by decide,
    context_window_bounded_by_21 exNode25 "hi" none (fun _ => .error ()) 7 8 9
      (by decide) (by decide)⟩

/-- Membership transfers from the raw rows to the sorted `listMessages`
output, since sorting permutes. -/
theorem mem_listMessages {node : SessionNode} {r : MsgRow} (h : r ∈ msgRows node) :
    r ∈ listMessages node :=
  ((List.mergeSort_perm (msgRows node) _).mem_iff).mpr h

/-- C3: a validated send-message request always answers 201 with exactly one
user message (role `user`, the submitted text) and one assistant message
(role `assistant`); a Reply Generator failure is never propagated — the
assistant text is then the fixed fallback string of ai.js. -/
theorem send_pipeline_201_and_fallback :
    ∀ (node : SessionNode) (t : String) (sysEnv : Option String)
      (modelRun : String → Except Unit String) (n1 n2 n3 : Nat),
      t ≠ "" →
      ∃ u a : RespMsg,
        (sendMessage node (some t) sysEnv modelRun n1 n2 n3).1 = SendResp.created u a ∧
        u.role = "user" ∧ u.text = t ∧ a.role = "assistant" ∧
        (modelRun (buildPrompt sysEnv (sendMessageContext node t n1)) = .error () →
          a.text = geminiFallback) := by
  intro node t sysEnv modelRun n1 n2 n3 ht
  have hbeq := beq_empty_false ht
  refine ⟨⟨"user", t, .sentinel⟩,
    ⟨"assistant",
      (if generateReply sysEnv (sendMessageContext node t n1) modelRun == "" then "…"
        else generateReply sysEnv (sendMessageContext node t n1) modelRun), .sentinel⟩,
    ?_, rfl, rfl, rfl, ?_⟩
  · simp [sendMessage, hbeq]
  · intro hgen
    have hg : generateReply sysEnv (sendMessageContext node t n1) modelRun = geminiFallback := by
      simp [generateReply, hgen]
    show (if generateReply sysEnv (sendMessageContext node t n1) modelRun == "" then "…"
      else generateReply sysEnv (sendMessageContext node t n1) modelRun) = geminiFallback
    rw [hg]
    decide

/-- C3 (witness): the theorem applied to an empty session with an
always-failing generator. -/
theorem send_pipeline_201_and_fallback_witness :
    ("hi" ≠ "") ∧
    ∃ u a : RespMsg,
      (sendMessage ⟨none, []⟩ (some "hi") none (fun _ => .error ()) 1 2 3).1 =
        SendResp.created u a ∧
      u.role = "user" ∧ u.text = "hi" ∧ a.role = "assistant" ∧
      ((Except.error () : Except Unit String) = .error () → a.text = geminiFallback) :=
  ⟨by decide,
    send_pipeline_201_and_fallback ⟨none, []⟩ "hi" none (fun _ => .error ()) 1 2 3 (by decide)⟩

/-- C10: the 201 response body returns the in-memory message objects, whose
`ts` is still the `ServerValue.TIMESTAMP` sentinel and which carry no `id`,
while the same two messages reappear in `listMessages` as rows with an `id`
and the resolved numeric server timestamps. -/
theorem send_response_sentinel_log_numeric :
    ∀ (node : SessionNode) (t : String) (sysEnv : Option String)
      (modelRun : String → Except Unit String) (n1 n2 n3 : Nat),
      t ≠ "" →
      ∃ u a : RespMsg,
        (sendMessage node (some t) sysEnv modelRun n1 n2 n3).1 = SendResp.created u a ∧
        u.ts = TsVal.sentinel ∧ a.ts = TsVal.sentinel ∧
        (∃ idU, MsgRow.mk idU (some "user") (some t) (some n1) ∈
          listMessages (sendMessage node (some t) sysEnv modelRun n1 n2 n3).2) ∧
        (∃ idA, MsgRow.mk idA (some "assistant") (some a.text) (some n2) ∈
          listMessages (sendMessage node (some t) sysEnv modelRun n1 n2 n3).2) := by
  intro node t sysEnv modelRun n1 n2 n3 ht
  have hbeq := beq_empty_false ht
  refine ⟨⟨"user", t, .sentinel⟩,
    ⟨"assistant",
      (if generateReply sysEnv (sendMessageContext node t n1) modelRun == "" then "…"
        else generateReply sysEnv (sendMessageContext node t n1) modelRun), .sentinel⟩,
    ?_, rfl, rfl, ⟨pushKey node.messages.length, ?_⟩,
    ⟨pushKey (node.messages.length + 1), ?_⟩⟩
  · simp [sendMessage, hbeq]
  · apply mem_listMessages
    simp [sendMessage, hbeq, msgRows]
  · apply mem_listMessages
    simp [sendMessage, hbeq, msgRows, pushKey]

/-- C10 (witness): the theorem applied to an empty session with a failing
generator. -/
theorem send_response_sentinel_log_numeric_witness :
    ("hi" ≠ "") ∧
    ∃ u a : RespMsg,
      (sendMessage ⟨none, []⟩ (some "hi") none (fun _ => .error ()) 1 2 3).1 =
        SendResp.created u a ∧
      u.ts = TsVal.sentinel ∧ a.ts = TsVal.sentinel ∧
      (∃ idU, MsgRow.mk idU (some "user") (some "hi") (some 1) ∈
        listMessages (sendMessage ⟨none, []⟩ (some "hi") none (fun _ => .error ()) 1 2 3).2) ∧
      (∃ idA, MsgRow.mk idA (some "assistant") (some a.text) (some 2) ∈
        listMessages (sendMessage ⟨none, []⟩ (some "hi") none (fun _ => .error ()) 1 2 3).2) :=
  ⟨by decide,
    send_response_sentinel_log_numeric ⟨none, []⟩ "hi" none (fun _ => .error ()) 1 2 3
      (by decide)⟩

/-- C7: `listSessions` is sorted by `updatedAt` descending with a missing
`updatedAt` treated as 0, has length `min 200 (number of sessions)` (so it is
truncated to at most 200 entries and complete below that), and every row is
drawn from this user's session rows (a sub-permutation). -/
theorem listSessions_sorted_truncated :
    ∀ store : Store,
      List.Pairwise (fun a b : SessionRow => b.updatedAt.getD 0 ≤ a.updatedAt.getD 0)
        (listSessions store) ∧
      (listSessions store).length = min 200 store.length ∧
      List.Subperm (listSessions store) (sessionRows store) := by
  intro store
  refine ⟨?_, ?_, ?_⟩
  · have htrans : ∀ a b c : SessionRow,
        (decide (b.updatedAt.getD 0 ≤ a.updatedAt.getD 0)) = true →
        (decide (c.updatedAt.getD 0 ≤ b.updatedAt.getD 0)) = true →
        (decide (c.updatedAt.getD 0 ≤ a.updatedAt.getD 0)) = true := by
      intro a b c h1 h2
      simp only [decide_eq_true_eq] at h1 h2 ⊢
      omega
    have htotal : ∀ a b : SessionRow,
        ((decide (b.updatedAt.getD 0 ≤ a.updatedAt.getD 0)) ||
          (decide (a.updatedAt.getD 0 ≤ b.updatedAt.getD 0))) = true := by
      intro a b
      simp only [Bool.or_eq_true, decide_eq_true_eq]
      omega
    have hp := List.sorted_mergeSort htrans htotal (sessionRows store)
    have hp' := List.Pairwise.sublist (List.take_sublist 200 _) hp
    exact hp'.imp (fun h => by simpa using h)
  · simp [listSessions, List.length_take, List.length_mergeSort, sessionRows]
  · simp only [listSessions]
    exact (List.take_sublist _ _).subperm.trans (List.mergeSort_perm _ _).subperm

/-- C8: `listMessages` is sorted ascending by `ts` with a missing `ts`
treated as 0, and is a permutation of all stored message rows of the session
— the full log, no pagination or truncation. -/
theorem listMessages_sorted_complete :
    ∀ node : SessionNode,
      List.Pairwise (fun a b : MsgRow => a.ts.getD 0 ≤ b.ts.getD 0) (listMessages node) ∧
      List.Perm (listMessages node) (msgRows node) ∧
      (listMessages node).length = node.messages.length := by
  intro node
  refine ⟨?_, List.mergeSort_perm _ _, ?_⟩
  · have htrans : ∀ a b c : MsgRow,
        (decide (a.ts.getD 0 ≤ b.ts.getD 0)) = true →
        (decide (b.ts.getD 0 ≤ c.ts.getD 0)) = true →
        (decide (a.ts.getD 0 ≤ c.ts.getD 0)) = true := by
      intro a b c h1 h2
      simp only [decide_eq_true_eq] at h1 h2 ⊢
      omega
    have htotal : ∀ a b : MsgRow,
        ((decide (a.ts.getD 0 ≤ b.ts.getD 0)) || (decide (b.ts.getD 0 ≤ a.ts.getD 0))) = true := by
      intro a b
      simp only [Bool.or_eq_true, decide_eq_true_eq]
      omega
    have hp := List.sorted_mergeSort htrans htotal (msgRows node)
    exact hp.imp (fun h => by simpa using h)
  · simp [listMessages, List.length_mergeSort, msgRows]

/-- C9: for every assembled context in which no message has an empty text
(always true of contexts built by the pipeline: windowed entries are filtered
truthy and the pushed text passed validation), the prompt built by
`generateReply` equals the specification's format: first system message's
text (else the process-wide default), the non-system messages rendered
`<Assistant|User>: <text>` newline-joined, and the trailing `Assistant:` cue. -/
theorem prompt_matches_specification :
    ∀ (sysEnv : Option String) (msgs : List CtxMsg),
      (∀ m ∈ msgs, m.text ≠ "") →
      buildPrompt sysEnv msgs = promptSpec sysEnv msgs := by
  intro sysEnv msgs h
  cases hf : msgs.find? (fun m => m.role == "system") with
  | none => simp [buildPrompt, promptSpec, hf]
  | some m =>
    have ht := h m (List.mem_of_find?_eq_some hf)
    simp [buildPrompt, promptSpec, hf, beq_empty_false ht]

/-- C9 (witness): the theorem applied to a one-message context. -/
theorem prompt_matches_specification_witness :
    (∀ m ∈ [CtxMsg.mk "user" "hi"], m.text ≠ "") ∧
    buildPrompt none [CtxMsg.mk "user" "hi"] = promptSpec none [CtxMsg.mk "user" "hi"] :=
  ⟨by decide, prompt_matches_specification none [CtxMsg.mk "user" "hi"] (by decide)⟩

end ChatJPT
